import Mathlib

/-!
Verification of the KPI / iROAS engine of the Influencer-ROI-Dashboard
repository (`src/app.py`).

The three analytical functions of `app.py` — `calculate_roas`,
`calculate_iroas` and `get_top_influencers` — are shallowly embedded here
over lists of records.  Monetary amounts are rationals (`ℚ`); the float
epsilon `1e-9` of the source becomes the exact rational `1/10^9`.

Pandas semantics that matter for the embedding:
* a `groupby` produces one output row per distinct key, each aggregated
  over the (non-empty) list of rows carrying that key; the embedding
  emits groups in first-occurrence key order (pandas sorts keys — the
  order of group rows is irrelevant to every property proved here);
* `merge(..., how='left')` keeps every left row and fills the right-hand
  columns of unmatched rows with NaN; with a unique right key this is a
  lookup with a `none` default, which is how it is embedded (`find?`);
  `merge` with the default `how='inner'` drops unmatched left rows;
* NaN propagates through arithmetic (`NaN * x = NaN`, `x - NaN = NaN`,
  `NaN / y = NaN`, `NaN + c = NaN`): embedded as `Option ℚ` with `none`
  for NaN and the NaN-propagating operations `oAdd`, `oSub`, `oMul`,
  `oDiv` below;
* `Series.mean()` skips NaN entries and returns NaN when no entry
  remains (in particular on an empty column): embedded as `seriesMean`.
-/

namespace InfluencerROI

/-- The epsilon guard `1e-9` of `app.py` (lines 51 and 83), as an exact
rational. -/
def eps : ℚ := 1 / 1000000000

/-- One row of the (already filtered) tracking table, with the columns
`calculate_roas` / `calculate_iroas` / `get_top_influencers` read:
`source`, `influencer_id`, `user_id`, `product`, `orders`, `revenue`
(column names from `notebooks/generate_data.py`, line 82). -/
structure TrackingRow where
  source : String
  influencer_id : Int
  user_id : Int
  product : String
  orders : Int
  revenue : ℚ
  deriving DecidableEq

/-- One row of the payout table (`generate_data.py`, line 105); only
`influencer_id` and `total_payout` are read by the engine. -/
structure PayoutRow where
  influencer_id : Int
  basis : String
  rate : ℚ
  total_payout : ℚ
  deriving DecidableEq

/-- One row of the influencer roster (`generate_data.py`, lines 15–22). -/
structure InfluencerRow where
  id : Int
  name : String
  category : String
  gender : String
  follower_count : Int
  platform : String
  deriving DecidableEq

/-- One row of the (already filtered) posts table; the engine reads
`influencer_id`, `likes`, `comments`, `reach`. -/
structure PostRow where
  influencer_id : Int
  likes : Int
  comments : Int
  reach : Int
  deriving DecidableEq

/-! ### NaN-propagating arithmetic on `Option ℚ` -/

/-- Elementwise `+` of pandas columns: NaN-propagating. -/
def oAdd : Option ℚ → Option ℚ → Option ℚ
  | some a, some b => some (a + b)
  | _, _ => none

/-- Elementwise `-` of pandas columns: NaN-propagating. -/
def oSub : Option ℚ → Option ℚ → Option ℚ
  | some a, some b => some (a - b)
  | _, _ => none

/-- Elementwise `*` of pandas columns: NaN-propagating. -/
def oMul : Option ℚ → Option ℚ → Option ℚ
  | some a, some b => some (a * b)
  | _, _ => none

/-- Elementwise `/` of pandas columns: NaN-propagating (the divisors
produced by the engine are non-zero whenever defined). -/
def oDiv : Option ℚ → Option ℚ → Option ℚ
  | some a, some b => some (a / b)
  | _, _ => none

/-- `Series.mean()` with the default `skipna=True`: the mean of the
defined entries, `none` (NaN) when no entry is defined — in particular
on an empty column. -/
def seriesMean (l : List (Option ℚ)) : Option ℚ :=
  let vals := l.filterMap id
  if vals.length = 0 then none else some (vals.sum / (vals.length : ℚ))

/-! ### Group-by infrastructure -/

/-- Distinct elements of a list in first-occurrence order (accumulator =
elements already emitted). -/
def uniqueKeysAux {κ : Type} [DecidableEq κ] (seen : List κ) : List κ → List κ
  | [] => []
  | k :: ks =>
    if k ∈ seen then uniqueKeysAux seen ks
    else k :: uniqueKeysAux (k :: seen) ks

/-- Distinct elements of a list, in first-occurrence order: the group
keys of a pandas `groupby` (key order is irrelevant to the properties
proved here). -/
def uniqueKeys {κ : Type} [DecidableEq κ] (l : List κ) : List κ :=
  uniqueKeysAux [] l

/-- `Series.nunique()`: the number of distinct values. -/
def nunique {α : Type} [DecidableEq α] (l : List α) : Nat :=
  (uniqueKeys l).length

/-! ### `calculate_roas` (`app.py`, lines 22–27) -/

/-- `calculate_roas(tracking_f, payouts)`: returns
`(total_rev, total_orders, total_spend, roas)`, with
`roas = total_rev / total_spend if total_spend else 0`. -/
def calculate_roas (tracking_f : List TrackingRow) (payouts : List PayoutRow) :
    ℚ × Int × ℚ × ℚ :=
  let total_rev := (tracking_f.map (·.revenue)).sum
  let total_orders := (tracking_f.map (·.orders)).sum
  let total_spend := (payouts.map (·.total_payout)).sum
  let roas := if total_spend = 0 then 0 else total_rev / total_spend
  (total_rev, total_orders, total_spend, roas)

/-! ### `calculate_iroas` (`app.py`, lines 30–54) -/

/-- One row of the organic baseline table (`app.py`, lines 31–36):
`organic.groupby('product').agg(org_users=nunique, org_revenue=sum)`
with `rev_per_user = org_revenue / org_users`. -/
structure BaselineRow where
  product : String
  org_users : Nat
  org_revenue : ℚ
  rev_per_user : ℚ
  deriving DecidableEq

/-- The baseline table of `calculate_iroas` (`app.py`, lines 31–36). -/
def baselineTable (tracking_f : List TrackingRow) : List BaselineRow :=
  let organic := tracking_f.filter (fun r => decide (r.source = "organic"))
  (uniqueKeys (organic.map (·.product))).map (fun p =>
    let rows := organic.filter (fun r => decide (r.product = p))
    let org_users := nunique (rows.map (·.user_id))
    let org_revenue := (rows.map (·.revenue)).sum
    { product := p, org_users := org_users, org_revenue := org_revenue,
      rev_per_user := org_revenue / (org_users : ℚ) })

/-- One row of the `inf_perf` table of `calculate_iroas` after all of
its column assignments (`app.py`, lines 38–51).  Columns produced by
left joins (and everything derived from them) are `Option ℚ`: `none` is
pandas NaN. -/
structure IroasRow where
  influencer_id : Int
  product : String
  inf_users : Nat
  inf_revenue : ℚ
  rev_per_user : Option ℚ
  expected_baseline_rev : Option ℚ
  incremental_revenue : Option ℚ
  total_payout : Option ℚ
  iROAS : Option ℚ
  deriving DecidableEq

/-- The row of `inf_perf` for one `(influencer_id, product)` group key
(`app.py`, lines 38–51): aggregation over the group's rows, left join
with the baseline on `product`, derived columns, left join with
`payouts[['influencer_id','total_payout']]` on `influencer_id`, and the
epsilon-guarded `iROAS` division. -/
def iroasRow (baseline : List BaselineRow) (payouts : List PayoutRow)
    (infRows : List TrackingRow) (k : Int × String) : IroasRow :=
  let rows := infRows.filter
    (fun r => decide (r.influencer_id = k.1) && decide (r.product = k.2))
  let inf_users := nunique (rows.map (·.user_id))
  let inf_revenue := (rows.map (·.revenue)).sum
  let rev_per_user :=
    (baseline.find? (fun b => decide (b.product = k.2))).map (·.rev_per_user)
  let expected_baseline_rev := oMul rev_per_user (some (inf_users : ℚ))
  let incremental_revenue := oSub (some inf_revenue) expected_baseline_rev
  let total_payout :=
    (payouts.find? (fun q => decide (q.influencer_id = k.1))).map (·.total_payout)
  let iROAS := oDiv incremental_revenue (oAdd total_payout (some eps))
  { influencer_id := k.1, product := k.2, inf_users := inf_users,
    inf_revenue := inf_revenue, rev_per_user := rev_per_user,
    expected_baseline_rev := expected_baseline_rev,
    incremental_revenue := incremental_revenue,
    total_payout := total_payout, iROAS := iROAS }

/-- `calculate_iroas(tracking_f, payouts)` (`app.py`, lines 30–54):
returns the per-`(influencer_id, product)` table `inf_perf` and
`overall_iroas = inf_perf['iROAS'].mean()`. -/
def calculate_iroas (tracking_f : List TrackingRow) (payouts : List PayoutRow) :
    List IroasRow × Option ℚ :=
  let baseline := baselineTable tracking_f
  let infRows := tracking_f.filter (fun r => decide (r.source = "influencer"))
  let keys := uniqueKeys (infRows.map (fun r => (r.influencer_id, r.product)))
  let inf_perf := keys.map (iroasRow baseline payouts infRows)
  (inf_perf, seriesMean (inf_perf.map (·.iROAS)))

/-! ### `get_top_influencers` (`app.py`, lines 60–85) -/

/-- One row of the `top_inf` table of `get_top_influencers` after all
merges and column assignments (`app.py`, lines 61–83). -/
structure TopRow where
  influencer_id : Int
  revenue : ℚ
  orders : Int
  name : String
  category : String
  gender : String
  follower_count : Int
  platform : String
  engagement_rate : Option ℚ
  total_payout : Option ℚ
  cost_per_order : Option ℚ
  deriving DecidableEq

/-- One row of `post_metrics` (`app.py`, lines 72–79). -/
structure PostMetricsRow where
  influencer_id : Int
  total_likes : Int
  total_comments : Int
  total_reach : Int
  engagement_rate : ℚ
  deriving DecidableEq

/-- `posts_f.groupby('influencer_id').agg(...)` with
`engagement_rate = (total_likes + total_comments) / total_reach`
(`app.py`, lines 72–79). -/
def postMetrics (posts_f : List PostRow) : List PostMetricsRow :=
  (uniqueKeys (posts_f.map (·.influencer_id))).map (fun i =>
    let rows := posts_f.filter (fun r => decide (r.influencer_id = i))
    let total_likes := (rows.map (·.likes)).sum
    let total_comments := (rows.map (·.comments)).sum
    let total_reach := (rows.map (·.reach)).sum
    { influencer_id := i, total_likes := total_likes,
      total_comments := total_comments, total_reach := total_reach,
      engagement_rate := ((total_likes + total_comments : ℤ) : ℚ) / (total_reach : ℚ) })

/-- The `top_inf` table before sorting and truncation (`app.py`, lines
61–83): group influencer-sourced tracking rows by `influencer_id`,
inner-merge with the roster on `influencer_id = id` (line 69, pandas
default `how='inner'`: unmatched ids are dropped — hence `filterMap`),
left-merge `engagement_rate` and `total_payout`, and derive
`cost_per_order = total_payout / (orders + 1e-9)`. -/
def top_inf_table (tracking_f : List TrackingRow) (posts_f : List PostRow)
    (payouts : List PayoutRow) (influencers : List InfluencerRow) : List TopRow :=
  let infRows := tracking_f.filter (fun r => decide (r.source = "influencer"))
  let pm := postMetrics posts_f
  (uniqueKeys (infRows.map (·.influencer_id))).filterMap (fun i =>
    let rows := infRows.filter (fun r => decide (r.influencer_id = i))
    let revenue := (rows.map (·.revenue)).sum
    let orders := (rows.map (·.orders)).sum
    (influencers.find? (fun inf => decide (inf.id = i))).map (fun inf =>
      let engagement_rate :=
        (pm.find? (fun m => decide (m.influencer_id = i))).map (·.engagement_rate)
      let total_payout :=
        (payouts.find? (fun q => decide (q.influencer_id = i))).map (·.total_payout)
      { influencer_id := i, revenue := revenue, orders := orders,
        name := inf.name, category := inf.category, gender := inf.gender,
        follower_count := inf.follower_count, platform := inf.platform,
        engagement_rate := engagement_rate, total_payout := total_payout,
        cost_per_order := total_payout.map (fun tp => tp / ((orders : ℚ) + eps)) }))

/-- The sort key of `top_inf.sort_values('revenue', ascending=False)`
(`app.py`, line 85): descending revenue order. -/
def revDescOrder (a b : TopRow) : Prop := b.revenue ≤ a.revenue

instance : DecidableRel revDescOrder := fun a b =>
  inferInstanceAs (Decidable (b.revenue ≤ a.revenue))

instance : IsTotal TopRow revDescOrder := ⟨fun a b => le_total b.revenue a.revenue⟩

instance : IsTrans TopRow revDescOrder := ⟨fun _ _ _ hab hbc => le_trans hbc hab⟩

/-- `get_top_influencers(tracking_f, posts_f, payouts, influencers, top_n)`
(`app.py`, lines 60–85): the `top_inf` table sorted descending by
`revenue` and truncated with `.head(top_n)`. -/
def get_top_influencers (tracking_f : List TrackingRow) (posts_f : List PostRow)
    (payouts : List PayoutRow) (influencers : List InfluencerRow) (top_n : Nat) :
    List TopRow :=
  (List.insertionSort revDescOrder
    (top_inf_table tracking_f posts_f payouts influencers)).take top_n

/-- The number of distinct influencers with influencer-sourced rows in
the filtered tracking table (the group count of `app.py`, line 63). -/
def distinctTrackedInfluencers (tracking_f : List TrackingRow) : Nat :=
  (uniqueKeys ((tracking_f.filter
    (fun r => decide (r.source = "influencer"))).map (·.influencer_id))).length

/-! ### Concrete fixture inputs used by the per-claim witnesses and counterexamples -/

/-- A single organic tracking row; its baseline table is the one-row
table `[c9b]` with `org_users = 1` and `rev_per_user = 500`. -/
def c9t : List TrackingRow :=
  [{ source := "organic", influencer_id := 0, user_id := 7,
     product := "Protein", orders := 1, revenue := 500 }]

def c9b : BaselineRow :=
  { product := "Protein", org_users := 1, org_revenue := 500, rev_per_user := 500 }

def c5t : List TrackingRow :=
  [{ source := "organic", influencer_id := 0, user_id := 1,
     product := "Protein", orders := 1, revenue := 60 },
   { source := "paid_ad", influencer_id := 0, user_id := 2,
     product := "Snack", orders := 0, revenue := 40 }]

def c5p : List PayoutRow :=
  [{ influencer_id := 1, basis := "post", rate := 10, total_payout := 40 }]

def c4t : List TrackingRow :=
  [{ source := "organic", influencer_id := 0, user_id := 2,
     product := "Snack", orders := 0, revenue := 0 },
   { source := "influencer", influencer_id := 1, user_id := 1,
     product := "Snack", orders := 1, revenue := 2000 }]

def c4p : List PayoutRow :=
  [{ influencer_id := 1, basis := "post", rate := 0, total_payout := 0 }]

def c4row : IroasRow :=
  { influencer_id := 1, product := "Snack", inf_users := 1, inf_revenue := 2000,
    rev_per_user := some 0, expected_baseline_rev := some 0,
    incremental_revenue := some 2000, total_payout := some 0,
    iROAS := some 2000000000000 }

def c7org : TrackingRow :=
  { source := "organic", influencer_id := 0, user_id := 1,
    product := "Protein", orders := 1, revenue := 500 }

def c7inf : TrackingRow :=
  { source := "influencer", influencer_id := 1, user_id := 2,
    product := "Protein", orders := 1, revenue := 900 }

def c7paid : TrackingRow :=
  { source := "paid_ad", influencer_id := 0, user_id := 3,
    product := "Snack", orders := 1, revenue := 12345 }

def c7p : List PayoutRow :=
  [{ influencer_id := 1, basis := "post", rate := 10, total_payout := 100 }]

def c2paid : TrackingRow :=
  { source := "paid_ad", influencer_id := 0, user_id := 1,
    product := "Protein", orders := 1, revenue := 999 }

def c2p : List PayoutRow :=
  [{ influencer_id := 1, basis := "post", rate := 10, total_payout := 100 }]

def c1org : TrackingRow :=
  { source := "organic", influencer_id := 0, user_id := 1,
    product := "Protein", orders := 1, revenue := 500 }

def c1inf : TrackingRow :=
  { source := "influencer", influencer_id := 1, user_id := 2,
    product := "Snack", orders := 1, revenue := 999 }

def c1p : List PayoutRow :=
  [{ influencer_id := 1, basis := "post", rate := 10, total_payout := 100 }]

def c3org : TrackingRow :=
  { source := "organic", influencer_id := 0, user_id := 5,
    product := "Protein", orders := 1, revenue := 500 }

def c3inf : TrackingRow :=
  { source := "influencer", influencer_id := 1, user_id := 2,
    product := "Protein", orders := 1, revenue := 999 }

def c3p : List PayoutRow :=
  [{ influencer_id := 2, basis := "post", rate := 10, total_payout := 100 }]

/-- Modelled from the claim's words, for comparison with the code: the
unweighted arithmetic mean of ALL per-group iROAS values in the output
table — the NaN-propagating column sum divided by the row count, so it
is NaN whenever any group's iROAS is NaN. -/
def specMeanAllGroups (l : List (Option ℚ)) : Option ℚ :=
  (l.foldr oAdd (some 0)).map (fun s => s / (l.length : ℚ))

def c6org : TrackingRow :=
  { source := "organic", influencer_id := 0, user_id := 1,
    product := "Protein", orders := 1, revenue := 500 }

def c6inf1 : TrackingRow :=
  { source := "influencer", influencer_id := 1, user_id := 2,
    product := "Protein", orders := 1, revenue := 2000 }

def c6inf2 : TrackingRow :=
  { source := "influencer", influencer_id := 2, user_id := 3,
    product := "Protein", orders := 1, revenue := 100 }

def c6p : List PayoutRow :=
  [{ influencer_id := 1, basis := "post", rate := 10, total_payout := 1000 }]

def c6wp : List PayoutRow :=
  [{ influencer_id := 1, basis := "post", rate := 10, total_payout := 1000 },
   { influencer_id := 2, basis := "order", rate := 10, total_payout := 500 }]

def c8t : List TrackingRow :=
  [{ source := "influencer", influencer_id := 1, user_id := 1,
     product := "Protein", orders := 1, revenue := 50 },
   { source := "influencer", influencer_id := 2, user_id := 2,
     product := "Snack", orders := 1, revenue := 80 }]

def c8infl : List InfluencerRow :=
  [{ id := 1, name := "A", category := "Fitness", gender := "F",
     follower_count := 1000, platform := "Instagram" },
   { id := 2, name := "B", category := "Wellness", gender := "M",
     follower_count := 2000, platform := "YouTube" }]

def c10t : List TrackingRow :=
  [{ source := "influencer", influencer_id := 99, user_id := 1,
     product := "Protein", orders := 1, revenue := 700 }]

def c10infl : List InfluencerRow :=
  [{ id := 1, name := "A", category := "Fitness", gender := "F",
     follower_count := 1000, platform := "Instagram" }]

/-! ### Infrastructure lemmas -/



theorem oAdd_none_left (x : Option ℚ) : oAdd none x = none := by
  cases x <;> rfl

theorem oSub_none_right (x : Option ℚ) : oSub x none = none := by
  cases x <;> rfl

theorem oMul_none_left (x : Option ℚ) : oMul none x = none := by
  cases x <;> rfl

theorem oDiv_none_left (x : Option ℚ) : oDiv none x = none := by
  cases x <;> rfl

theorem oDiv_none_right (x : Option ℚ) : oDiv x none = none := by
  cases x <;> rfl

theorem mem_uniqueKeysAux {κ : Type} [DecidableEq κ] (a : κ) :
    ∀ (l seen : List κ), a ∈ uniqueKeysAux seen l ↔ a ∈ l ∧ a ∉ seen := by
  intro l
  induction l with
  | nil => intro seen; simp [uniqueKeysAux]
  | cons k ks ih =>
    intro seen
    by_cases hk : k ∈ seen
    · rw [uniqueKeysAux, if_pos hk, ih, List.mem_cons]
      constructor
      · exact fun ⟨h1, h2⟩ => ⟨Or.inr h1, h2⟩
      · rintro ⟨h1 | h1, h2⟩
        · exact absurd (h1 ▸ hk) h2
        · exact ⟨h1, h2⟩
    · rw [uniqueKeysAux, if_neg hk, List.mem_cons, ih, List.mem_cons, List.mem_cons]
      constructor
      · rintro (rfl | ⟨h1, h2⟩)
        · exact ⟨Or.inl rfl, hk⟩
        · exact ⟨Or.inr h1, fun hs => h2 (Or.inr hs)⟩
      · rintro ⟨rfl | h1, h2⟩
        · exact Or.inl rfl
        · by_cases hak : a = k
          · exact Or.inl hak
          · exact Or.inr ⟨h1, fun hs => hs.elim hak h2⟩

theorem mem_uniqueKeys {κ : Type} [DecidableEq κ] {a : κ} {l : List κ} :
    a ∈ uniqueKeys l ↔ a ∈ l := by
  rw [uniqueKeys, mem_uniqueKeysAux]
  simp

theorem nunique_pos {α : Type} [DecidableEq α] {l : List α} (h : l ≠ []) :
    0 < nunique l := by
  obtain ⟨a, ha⟩ := List.exists_mem_of_ne_nil l h
  rw [nunique, List.length_pos]
  exact List.ne_nil_of_mem (mem_uniqueKeys.mpr ha)

/-- Membership in the `(influencer_id, product)` group keys of
`calculate_iroas`, phrased on the raw tracking rows. -/
theorem mem_treatment_keys {t : List TrackingRow} {i : Int} {pr : String} :
    (i, pr) ∈ uniqueKeys ((t.filter (fun r => decide (r.source = "influencer"))).map
      (fun r => (r.influencer_id, r.product))) ↔
    ∃ r ∈ t, r.source = "influencer" ∧ r.influencer_id = i ∧ r.product = pr := by
  rw [mem_uniqueKeys]
  simp only [List.mem_map, List.mem_filter, decide_eq_true_eq, Prod.mk.injEq]
  constructor
  · rintro ⟨r, ⟨hrt, hrs⟩, hri, hrp⟩
    exact ⟨r, hrt, hrs, hri, hrp⟩
  · rintro ⟨r, hrt, hrs, hri, hrp⟩
    exact ⟨r, ⟨hrt, hrs⟩, hri, hrp⟩

/-- Every product in the baseline table comes from some organic row. -/
theorem baseline_product_mem {t : List TrackingRow} {b : BaselineRow}
    (hb : b ∈ baselineTable t) :
    ∃ r ∈ t, r.source = "organic" ∧ r.product = b.product := by
  simp only [baselineTable, List.mem_map] at hb
  obtain ⟨p, hp, rfl⟩ := hb
  rw [mem_uniqueKeys] at hp
  simp only [List.mem_map, List.mem_filter, decide_eq_true_eq] at hp
  obtain ⟨r, ⟨hrt, hrs⟩, hrp⟩ := hp
  exact ⟨r, hrt, hrs, hrp⟩

/-- If no organic row carries product `pr`, the baseline lookup on `pr`
misses. -/
theorem baseline_find_none {t : List TrackingRow} {pr : String}
    (h : ∀ r ∈ t, r.source = "organic" → r.product ≠ pr) :
    (baselineTable t).find? (fun b => decide (b.product = pr)) = none := by
  rw [List.find?_eq_none]
  intro b hb
  simp only [decide_eq_true_eq]
  obtain ⟨r, hrt, hrs, hrp⟩ := baseline_product_mem hb
  intro hbp
  exact h r hrt hrs (hrp.trans hbp)

/-- If influencer `i` has no payout row, the payout lookup misses. -/
theorem payout_find_none {p : List PayoutRow} {i : Int}
    (h : ∀ q ∈ p, q.influencer_id ≠ i) :
    p.find? (fun q => decide (q.influencer_id = i)) = none := by
  rw [List.find?_eq_none]
  intro q hq
  simpa using h q hq

/-! ### C9 -/

/-- C9: in `calculate_iroas`, the baseline division
`org_revenue / org_users` never divides by zero: every product group of
the organic partition is formed from at least one row, so its distinct
`user_id` count is at least 1, and `rev_per_user` is the true quotient
`org_revenue / org_users`.  Products with no organic rows never appear
in the baseline table. -/
theorem C9_baseline_no_division_by_zero (tracking_f : List TrackingRow) :
    ∀ b ∈ baselineTable tracking_f,
      1 ≤ b.org_users ∧ (b.org_users : ℚ) ≠ 0 ∧
      b.rev_per_user = b.org_revenue / (b.org_users : ℚ) := by
  intro b hb
  simp only [baselineTable, List.mem_map] at hb
  obtain ⟨p, hp, rfl⟩ := hb
  rw [mem_uniqueKeys] at hp
  simp only [List.mem_map, List.mem_filter, decide_eq_true_eq] at hp
  obtain ⟨r, ⟨hrt, hrs⟩, hrp⟩ := hp
  have hmem : r ∈ (tracking_f.filter
      (fun r => decide (r.source = "organic"))).filter
      (fun r => decide (r.product = p)) := by
    simp only [List.mem_filter, decide_eq_true_eq]
    exact ⟨⟨hrt, hrs⟩, hrp⟩
  have hne : ((tracking_f.filter (fun r => decide (r.source = "organic"))).filter
      (fun r => decide (r.product = p))).map (·.user_id) ≠ [] :=
    List.ne_nil_of_mem (List.mem_map_of_mem (·.user_id) hmem)
  have hpos := nunique_pos hne
  exact ⟨hpos, by exact_mod_cast hpos.ne', rfl⟩

set_option maxRecDepth 100000 in
theorem C9_witness :
    c9b ∈ baselineTable c9t ∧
    (1 ≤ c9b.org_users ∧ (c9b.org_users : ℚ) ≠ 0 ∧
     c9b.rev_per_user = c9b.org_revenue / (c9b.org_users : ℚ)) :=
  ⟨by with_unfolding_all decide,
   C9_baseline_no_division_by_zero c9t c9b (by with_unfolding_all decide)⟩

/-! ### C5 -/

/-- C5: `calculate_roas` returns `total_revenue` = the sum of `revenue`
over all tracking rows regardless of source, `total_orders` = the sum of
the order flags, `total_spend` = the sum of `total_payout` over the full
payout table, and `ROAS` = `total_revenue / total_spend` when
`total_spend` is nonzero and `0` when `total_spend` is `0` — it never
raises and never returns infinity (the quotient by a nonzero rational is
an ordinary rational, recovering `roas * total_spend = total_revenue`). -/
theorem C5_calculate_roas_spec (tracking_f : List TrackingRow) (payouts : List PayoutRow) :
    (calculate_roas tracking_f payouts).1 = (tracking_f.map (·.revenue)).sum ∧
    (calculate_roas tracking_f payouts).2.1 = (tracking_f.map (·.orders)).sum ∧
    (calculate_roas tracking_f payouts).2.2.1 = (payouts.map (·.total_payout)).sum ∧
    ((payouts.map (·.total_payout)).sum = 0 →
      (calculate_roas tracking_f payouts).2.2.2 = 0) ∧
    ((payouts.map (·.total_payout)).sum ≠ 0 →
      (calculate_roas tracking_f payouts).2.2.2 =
        (tracking_f.map (·.revenue)).sum / (payouts.map (·.total_payout)).sum ∧
      (calculate_roas tracking_f payouts).2.2.2 * (payouts.map (·.total_payout)).sum =
        (tracking_f.map (·.revenue)).sum) := by
  refine ⟨rfl, rfl, rfl, ?_, ?_⟩
  · intro h
    simp [calculate_roas, h]
  · intro h
    constructor
    · simp [calculate_roas, h]
    · simp only [calculate_roas, if_neg h]
      exact div_mul_cancel₀ _ h

/-- C5 witness: on a concrete two-row tracking table and a one-row
payout table with nonzero spend, `roas * total_spend = total_revenue`. -/
theorem C5_witness :
    ((c5p.map (·.total_payout)).sum ≠ 0) ∧
    (calculate_roas c5t c5p).2.2.2 * (c5p.map (·.total_payout)).sum =
      (c5t.map (·.revenue)).sum :=
  ⟨by with_unfolding_all decide,
   ((C5_calculate_roas_spec c5t c5p).2.2.2.2 (by with_unfolding_all decide)).2⟩

/-! ### C4 -/

/-- C4: for every row of the iROAS output table,
`iROAS = incremental_revenue / (total_payout + 1e-9)` exactly — the
fixed additive epsilon in the denominator, with no alternate
conditional zero-check branch and no sentinel value (the equation holds
for every row, in NaN-propagating column arithmetic); in particular a
zero-payout influencer gets the large but finite value
`incremental_revenue * 10^9`. -/
theorem C4_iroas_epsilon_division (tracking_f : List TrackingRow)
    (payouts : List PayoutRow) :
    ∀ row ∈ (calculate_iroas tracking_f payouts).1,
      row.iROAS = oDiv row.incremental_revenue (oAdd row.total_payout (some eps)) ∧
      (∀ ir tp : ℚ, row.incremental_revenue = some ir → row.total_payout = some tp →
        row.iROAS = some (ir / (tp + eps))) ∧
      (∀ ir : ℚ, row.incremental_revenue = some ir → row.total_payout = some 0 →
        row.iROAS = some (ir * 1000000000)) := by
  intro row hrow
  have h1 : row.iROAS = oDiv row.incremental_revenue (oAdd row.total_payout (some eps)) := by
    simp only [calculate_iroas, List.mem_map] at hrow
    obtain ⟨k, hk, rfl⟩ := hrow
    rfl
  refine ⟨h1, ?_, ?_⟩
  · intro ir tp hir htp
    rw [h1, hir, htp]
    rfl
  · intro ir hir htp
    rw [h1, hir, htp]
    show some (ir / (0 + eps)) = some (ir * 1000000000)
    rw [zero_add]
    simp only [eps]
    rw [div_div_eq_mul_div, div_one]

set_option maxRecDepth 10000 in
/-- C4 witness: a concrete zero-payout influencer row has
`iROAS = incremental_revenue * 10^9`, large but finite. -/
theorem C4_witness :
    c4row ∈ (calculate_iroas c4t c4p).1 ∧
    c4row.incremental_revenue = some 2000 ∧ c4row.total_payout = some 0 ∧
    c4row.iROAS = some (2000 * 1000000000) := by
  have htab : (calculate_iroas c4t c4p).1 = [c4row] := by with_unfolding_all rfl
  have hm : c4row ∈ (calculate_iroas c4t c4p).1 := by
    rw [htab]; exact List.mem_singleton_self c4row
  exact ⟨hm, rfl, rfl,
    (C4_iroas_epsilon_division c4t c4p c4row hm).2.2 2000 rfl rfl⟩

/-! ### C7 -/

/-- C7: rows with `source = "paid_ad"` have no effect on the iROAS
estimator: any two filtered tracking tables that agree on their organic
rows and on their influencer rows (and may differ arbitrarily in
`paid_ad` rows) produce identical `calculate_iroas` output — the same
per-`(influencer, product)` table and the same overall iROAS. -/
theorem C7_paid_ad_rows_irrelevant (t1 t2 : List TrackingRow) (payouts : List PayoutRow)
    (horg : t1.filter (fun r => decide (r.source = "organic")) =
            t2.filter (fun r => decide (r.source = "organic")))
    (hinf : t1.filter (fun r => decide (r.source = "influencer")) =
            t2.filter (fun r => decide (r.source = "influencer"))) :
    calculate_iroas t1 payouts = calculate_iroas t2 payouts := by
  simp only [calculate_iroas, baselineTable]
  rw [horg, hinf]

/-- C7 witness: dropping a concrete `paid_ad` row leaves the iROAS
output unchanged. -/
theorem C7_witness :
    ([c7org, c7inf, c7paid].filter (fun r => decide (r.source = "organic")) =
      [c7org, c7inf].filter (fun r => decide (r.source = "organic"))) ∧
    ([c7org, c7inf, c7paid].filter (fun r => decide (r.source = "influencer")) =
      [c7org, c7inf].filter (fun r => decide (r.source = "influencer"))) ∧
    calculate_iroas [c7org, c7inf, c7paid] c7p = calculate_iroas [c7org, c7inf] c7p :=
  ⟨by with_unfolding_all rfl, by with_unfolding_all rfl,
   C7_paid_ad_rows_irrelevant [c7org, c7inf, c7paid] [c7org, c7inf] c7p
     (by with_unfolding_all rfl) (by with_unfolding_all rfl)⟩

/-! ### C2 -/

/-- C2 counterexample: with all traffic from `paid_ad`, the
per-`(influencer, product)` table is empty, but the overall value
`inf_perf['iROAS'].mean()` is pandas NaN (here `none`) — not `0` as the
claim states. -/
theorem C2_counterexample :
    (calculate_iroas [c2paid] c2p).1 = [] ∧
    (calculate_iroas [c2paid] c2p).2 = none ∧
    (calculate_iroas [c2paid] c2p).2 ≠ some 0 := by
  refine ⟨by with_unfolding_all rfl, by with_unfolding_all rfl, ?_⟩
  rw [show (calculate_iroas [c2paid] c2p).2 = none from by with_unfolding_all rfl]
  simp

/-- C2 as amended: when the filtered tracking table contains no
influencer-sourced rows, `calculate_iroas` returns an empty
per-`(influencer, product)` table and an overall mean iROAS of NaN
(`none`, the pandas mean of an empty column) — not `0`, and not an
error. -/
theorem C2_empty_treatment_nan_mean (t : List TrackingRow) (p : List PayoutRow)
    (h : ∀ r ∈ t, r.source ≠ "influencer") :
    (calculate_iroas t p).1 = [] ∧ (calculate_iroas t p).2 = none := by
  have hfil : t.filter (fun r => decide (r.source = "influencer")) = [] := by
    rw [List.filter_eq_nil_iff]
    intro a ha
    simpa using h a ha
  simp [calculate_iroas, hfil, uniqueKeys, uniqueKeysAux, seriesMean]

/-- C2 witness: the amended statement applied to the concrete all-paid
input. -/
theorem C2_witness :
    (∀ r ∈ [c2paid], r.source ≠ "influencer") ∧
    (calculate_iroas [c2paid] c2p).1 = [] ∧ (calculate_iroas [c2paid] c2p).2 = none :=
  ⟨by decide, C2_empty_treatment_nan_mean [c2paid] c2p (by decide)⟩

/-! ### C1 -/

/-- C1 counterexample: influencer 1 sells product `"Snack"`, which has
no organic baseline.  The code's left merge leaves `rev_per_user` NaN,
so `incremental_revenue` for the group is NaN (`none`), not the full
`influencer_revenue` of `999` as the claim states: the undefined value
IS propagated. -/
theorem C1_counterexample :
    ((calculate_iroas [c1org, c1inf] c1p).1.map (·.incremental_revenue)) = [none] ∧
    ((calculate_iroas [c1org, c1inf] c1p).1.map (·.inf_revenue)) = [(999 : ℚ)] ∧
    ((none : Option ℚ) ≠ some (999 : ℚ)) :=
  ⟨by with_unfolding_all rfl, by with_unfolding_all rfl, by simp⟩

/-- C1 as amended: for every `(influencer_id, product)` group of the
treatment population whose product has no organic baseline, the row is
kept in the output but `rev_per_user`, `expected_baseline_rev`,
`incremental_revenue` and `iROAS` are all NaN (`none`): the undefined
value is propagated (and the group is later skipped by the NaN-skipping
overall mean), rather than `revenue_per_user` being taken as `0`. -/
theorem C1_missing_baseline_propagates_nan (t : List TrackingRow) (p : List PayoutRow)
    (i : Int) (pr : String)
    (hmem : ∃ r ∈ t, r.source = "influencer" ∧ r.influencer_id = i ∧ r.product = pr)
    (hnoorg : ∀ r ∈ t, r.source = "organic" → r.product ≠ pr) :
    ∃ row ∈ (calculate_iroas t p).1,
      row.influencer_id = i ∧ row.product = pr ∧
      row.rev_per_user = none ∧ row.expected_baseline_rev = none ∧
      row.incremental_revenue = none ∧ row.iROAS = none := by
  have hk : (i, pr) ∈ uniqueKeys ((t.filter (fun r => decide (r.source = "influencer"))).map
      (fun r => (r.influencer_id, r.product))) := mem_treatment_keys.mpr hmem
  refine ⟨iroasRow (baselineTable t) p
    (t.filter (fun r => decide (r.source = "influencer"))) (i, pr), ?_, ?_⟩
  · simp only [calculate_iroas, List.mem_map]
    exact ⟨(i, pr), hk, rfl⟩
  · have hfind : (baselineTable t).find? (fun b => decide (b.product = pr)) = none :=
      baseline_find_none hnoorg
    simp [iroasRow, hfind, oMul_none_left, oSub_none_right, oDiv_none_left]

/-- C1 witness: the amended statement applied to the concrete input of
the counterexample. -/
theorem C1_witness :
    (∃ r ∈ [c1org, c1inf], r.source = "influencer" ∧
      r.influencer_id = 1 ∧ r.product = "Snack") ∧
    (∀ r ∈ [c1org, c1inf], r.source = "organic" → r.product ≠ "Snack") ∧
    ∃ row ∈ (calculate_iroas [c1org, c1inf] c1p).1,
      row.influencer_id = 1 ∧ row.product = "Snack" ∧
      row.rev_per_user = none ∧ row.expected_baseline_rev = none ∧
      row.incremental_revenue = none ∧ row.iROAS = none :=
  ⟨by decide, by decide,
   C1_missing_baseline_propagates_nan [c1org, c1inf] c1p 1 "Snack"
     (by decide) (by decide)⟩

/-! ### C3 -/

/-- C3 counterexample: influencer 1 has no payout row.  The left merge
keeps the `(1, "Protein")` row, but its `total_payout` is NaN (`none`),
not the claimed default of `0`, and its `iROAS` is NaN, not a finite
number produced by the epsilon-floored division. -/
theorem C3_counterexample :
    ((calculate_iroas [c3org, c3inf] c3p).1.map (·.total_payout)) = [none] ∧
    ((calculate_iroas [c3org, c3inf] c3p).1.map (·.iROAS)) = [none] ∧
    ((calculate_iroas [c3org, c3inf] c3p).1.length = 1) ∧
    ((none : Option ℚ) ≠ some (0 : ℚ)) :=
  ⟨by with_unfolding_all rfl, by with_unfolding_all rfl,
   by with_unfolding_all rfl, by simp⟩

/-- C3 as amended: every `(influencer_id, product)` group whose
influencer has no row in the payout table IS kept in the output
(left-join semantics, no exception), but its `total_payout` is NaN
(`none`), not a default of `0`, and its `iROAS` is NaN rather than a
finite epsilon-floored quotient (the group is then skipped by the
overall mean). -/
theorem C3_missing_payout_propagates_nan (t : List TrackingRow) (p : List PayoutRow)
    (i : Int) (pr : String)
    (hmem : ∃ r ∈ t, r.source = "influencer" ∧ r.influencer_id = i ∧ r.product = pr)
    (hnopay : ∀ q ∈ p, q.influencer_id ≠ i) :
    ∃ row ∈ (calculate_iroas t p).1,
      row.influencer_id = i ∧ row.product = pr ∧
      row.total_payout = none ∧ row.iROAS = none := by
  have hk : (i, pr) ∈ uniqueKeys ((t.filter (fun r => decide (r.source = "influencer"))).map
      (fun r => (r.influencer_id, r.product))) := mem_treatment_keys.mpr hmem
  refine ⟨iroasRow (baselineTable t) p
    (t.filter (fun r => decide (r.source = "influencer"))) (i, pr), ?_, ?_⟩
  · simp only [calculate_iroas, List.mem_map]
    exact ⟨(i, pr), hk, rfl⟩
  · have hfind : p.find? (fun q => decide (q.influencer_id = i)) = none :=
      payout_find_none hnopay
    simp [iroasRow, hfind, oAdd_none_left, oDiv_none_right]

/-- C3 witness: the amended statement applied to the concrete input of
the counterexample. -/
theorem C3_witness :
    (∃ r ∈ [c3org, c3inf], r.source = "influencer" ∧
      r.influencer_id = 1 ∧ r.product = "Protein") ∧
    (∀ q ∈ c3p, q.influencer_id ≠ 1) ∧
    ∃ row ∈ (calculate_iroas [c3org, c3inf] c3p).1,
      row.influencer_id = 1 ∧ row.product = "Protein" ∧
      row.total_payout = none ∧ row.iROAS = none :=
  ⟨by decide, by decide,
   C3_missing_payout_propagates_nan [c3org, c3inf] c3p 1 "Protein"
     (by decide) (by decide)⟩

/-! ### C6 -/

/-- C6 counterexample: a non-empty treatment population with two groups,
one of whose iROAS is NaN (influencer 2 has no payout row).  The mean of
all per-group iROAS values is NaN, but `Series.mean()` skips the NaN, so
the code returns the defined group's value — the overall iROAS is NOT
the arithmetic mean of the per-group iROAS values in the output table. -/
theorem C6_counterexample :
    specMeanAllGroups (((calculate_iroas [c6org, c6inf1, c6inf2] c6p).1).map (·.iROAS)) =
      none ∧
    ((calculate_iroas [c6org, c6inf1, c6inf2] c6p).1).length = 2 ∧
    (calculate_iroas [c6org, c6inf1, c6inf2] c6p).2 =
      some (1500000000000 / 1000000000001 : ℚ) ∧
    (calculate_iroas [c6org, c6inf1, c6inf2] c6p).2 ≠
      specMeanAllGroups (((calculate_iroas [c6org, c6inf1, c6inf2] c6p).1).map (·.iROAS)) := by
  have h1 : specMeanAllGroups
      (((calculate_iroas [c6org, c6inf1, c6inf2] c6p).1).map (·.iROAS)) = none := by
    with_unfolding_all rfl
  have h2 : (calculate_iroas [c6org, c6inf1, c6inf2] c6p).2 =
      some (1500000000000 / 1000000000001 : ℚ) := by
    with_unfolding_all rfl
  refine ⟨h1, by with_unfolding_all rfl, h2, ?_⟩
  rw [h1, h2]
  simp

/-- C6 as amended: the overall iROAS returned by `calculate_iroas` is
the unweighted arithmetic mean of the DEFINED (non-NaN) per-group iROAS
values — each defined group counts equally, with no revenue or spend
weighting — while groups whose iROAS is NaN are skipped; when no group
has a defined iROAS the overall value is NaN. -/
theorem C6_unweighted_mean_over_defined (t : List TrackingRow) (p : List PayoutRow)
    (h : (((calculate_iroas t p).1).map (·.iROAS)).filterMap id ≠ []) :
    (calculate_iroas t p).2 =
      some (((((calculate_iroas t p).1).map (·.iROAS)).filterMap id).sum /
        (((((calculate_iroas t p).1).map (·.iROAS)).filterMap id).length : ℚ)) := by
  have heq : (calculate_iroas t p).2 =
      seriesMean (((calculate_iroas t p).1).map (·.iROAS)) := rfl
  rw [heq]
  simp only [seriesMean]
  rw [if_neg]
  intro hl
  exact h (List.length_eq_zero.mp hl)

/-- C6 witness: with both influencers paid, both groups have defined
iROAS and the overall value is their unweighted mean. -/
theorem C6_witness :
    ((((calculate_iroas [c6org, c6inf1, c6inf2] c6wp).1).map (·.iROAS)).filterMap id ≠ []) ∧
    (calculate_iroas [c6org, c6inf1, c6inf2] c6wp).2 =
      some (((((calculate_iroas [c6org, c6inf1, c6inf2] c6wp).1).map (·.iROAS)).filterMap id).sum /
        (((((calculate_iroas [c6org, c6inf1, c6inf2] c6wp).1).map (·.iROAS)).filterMap id).length : ℚ)) := by
  have hl : (((((calculate_iroas [c6org, c6inf1, c6inf2] c6wp).1).map (·.iROAS)).filterMap id)).length = 2 := by
    with_unfolding_all rfl
  have hne : ((((calculate_iroas [c6org, c6inf1, c6inf2] c6wp).1).map (·.iROAS)).filterMap id) ≠ [] := by
    intro hnil
    rw [hnil] at hl
    simp at hl
  exact ⟨hne, C6_unweighted_mean_over_defined [c6org, c6inf1, c6inf2] c6wp hne⟩

/-! ### C8 -/

/-- C8: the top-influencers ranker returns its rows sorted in
descending order of revenue and truncated to at most `top_n` rows
(`length = min top_n available`); when `top_n` is at least the number
of distinct influencers with influencer-sourced rows in the filtered
window, it returns all available rows — the whole sorted table, no
padding and no error. -/
theorem C8_top_influencers_sorted_truncated (tracking_f : List TrackingRow)
    (posts_f : List PostRow) (payouts : List PayoutRow)
    (influencers : List InfluencerRow) (top_n : Nat) :
    (get_top_influencers tracking_f posts_f payouts influencers top_n).Sorted revDescOrder ∧
    (get_top_influencers tracking_f posts_f payouts influencers top_n).length =
      min top_n (top_inf_table tracking_f posts_f payouts influencers).length ∧
    (distinctTrackedInfluencers tracking_f ≤ top_n →
      get_top_influencers tracking_f posts_f payouts influencers top_n =
        List.insertionSort revDescOrder (top_inf_table tracking_f posts_f payouts influencers)) := by
  refine ⟨?_, ?_, ?_⟩
  · exact List.Pairwise.sublist (List.take_sublist _ _)
      (List.sorted_insertionSort revDescOrder _)
  · simp only [get_top_influencers]
    rw [List.length_take, List.length_insertionSort]
  · intro h
    have hle : (top_inf_table tracking_f posts_f payouts influencers).length ≤
        distinctTrackedInfluencers tracking_f := by
      simp only [top_inf_table, distinctTrackedInfluencers]
      exact List.length_filterMap_le _ _
    simp only [get_top_influencers]
    rw [List.take_of_length_le]
    rw [List.length_insertionSort]
    exact le_trans hle h

/-- C8 witness: with 2 distinct influencers and `top_n = 5`, the ranker
returns the entire sorted table. -/
theorem C8_witness :
    distinctTrackedInfluencers c8t ≤ 5 ∧
    get_top_influencers c8t [] [] c8infl 5 =
      List.insertionSort revDescOrder (top_inf_table c8t [] [] c8infl) :=
  ⟨by decide, (C8_top_influencers_sorted_truncated c8t [] [] c8infl 5).2.2 (by decide)⟩

/-! ### C10 -/

/-- C10: `get_top_influencers` joins the per-influencer revenue
aggregates to the influencer roster with an inner join: an
`influencer_id` that appears in influencer-sourced tracking rows (so it
is one of the grouped aggregate keys) but has no row in the
`influencers` table is silently dropped — no row of the ranker's output
carries it. -/
theorem C10_unrostered_influencer_dropped (tracking_f : List TrackingRow)
    (posts_f : List PostRow) (payouts : List PayoutRow)
    (influencers : List InfluencerRow) (top_n : Nat) (i : Int)
    (hin : ∃ r ∈ tracking_f, r.source = "influencer" ∧ r.influencer_id = i)
    (hout : ∀ inf ∈ influencers, inf.id ≠ i) :
    i ∈ (tracking_f.filter (fun r => decide (r.source = "influencer"))).map (·.influencer_id) ∧
    ∀ row ∈ get_top_influencers tracking_f posts_f payouts influencers top_n,
      row.influencer_id ≠ i := by
  constructor
  · obtain ⟨r, hrt, hrs, hri⟩ := hin
    exact List.mem_map.mpr ⟨r, List.mem_filter.mpr ⟨hrt, by simp [hrs]⟩, hri⟩
  · intro row hrow
    simp only [get_top_influencers] at hrow
    have h1 : row ∈ List.insertionSort revDescOrder
        (top_inf_table tracking_f posts_f payouts influencers) :=
      List.take_subset _ _ hrow
    have h2 : row ∈ top_inf_table tracking_f posts_f payouts influencers :=
      (List.perm_insertionSort revDescOrder _).mem_iff.mp h1
    simp only [top_inf_table, List.mem_filterMap] at h2
    obtain ⟨j, hj, hfj⟩ := h2
    rw [Option.map_eq_some'] at hfj
    obtain ⟨inf, hfind, hrow_eq⟩ := hfj
    intro hcontra
    have hji : j = i := by
      rw [← hrow_eq] at hcontra
      exact hcontra
    have hp := List.find?_some hfind
    simp only [decide_eq_true_eq] at hp
    exact hout inf (List.mem_of_find?_eq_some hfind) (hp.trans hji)

/-- C10 witness: influencer 99 has tracking revenue but no roster row,
and no output row of the ranker carries id 99. -/
theorem C10_witness :
    (∃ r ∈ c10t, r.source = "influencer" ∧ r.influencer_id = 99) ∧
    (∀ inf ∈ c10infl, inf.id ≠ 99) ∧
    ((99 : Int) ∈ (c10t.filter (fun r => decide (r.source = "influencer"))).map (·.influencer_id) ∧
     ∀ row ∈ get_top_influencers c10t [] [] c10infl 10, row.influencer_id ≠ 99) :=
  ⟨by decide, by decide,
   C10_unrostered_influencer_dropped c10t [] [] c10infl 10 99 (by decide) (by decide)⟩

end InfluencerROI
